import Mathlib

/-!
Verification of the MediCheck document-intake, credit-metered analysis
pipeline and its idempotent payment-crediting subsystem.

The data model is embedded from `supabase_schema.sql` (tables `profiles`,
`purchases`, `analyses`, the row-level-security policies and the
`get_admin_stats` function) and from the frontend sources
(`BillUpload.jsx`, `BillAnalysis.jsx`, `CreditsContext.jsx`).  The Flask
backend (`backend/app.py`, `llm_service.py`) is described by the
repository's documentation but its code is not in the tree; the
operations it implements (the credit gate, the Stripe webhook
reconciler, the `/process` pipeline) are modelled from the design
documents, as marked on each definition.
-/

/-- A row of the `profiles` table (supabase_schema.sql):
`scan_credits integer default 0 not null`,
`free_scan_used boolean default false not null`,
`total_scans integer default 0 not null`.
SQL `integer` is modelled as `Int`, so non-negativity of the balance is a
property to prove, not a consequence of the type. -/
structure Profile where
  scan_credits : Int
  free_scan_used : Bool
  total_scans : Int
deriving DecidableEq, Repr

/-- Result of the credit gate: the request is admitted, or denied for
lack of entitlement. -/
inductive ConsumeResult
  | granted
  | deniedNoEntitlement
deriving DecidableEq, Repr

/-- Modelled from the spec: the Admission Controller `tryConsume`
(backend credit deduction; `backend/app.py` is not in the source tree).
"Single atomic operation against the Ledger: if `free_scan_consumed ==
false`, set it true and grant; else if `credit_balance > 0`, decrement
by exactly 1 and grant; else deny." -/
def tryConsume (p : Profile) : ConsumeResult × Profile :=
  if p.free_scan_used = false then
    (ConsumeResult.granted,
      { p with free_scan_used := true, total_scans := p.total_scans + 1 })
  else if p.scan_credits > 0 then
    (ConsumeResult.granted,
      { p with scan_credits := p.scan_credits - 1,
               total_scans := p.total_scans + 1 })
  else
    (ConsumeResult.deniedNoEntitlement, p)

/-- `n` successive `tryConsume` operations against one principal's
account (the gate takes no other input, so a sequence of calls is an
iteration count). -/
def consumeN : Nat → Profile → Profile
  | 0, p => p
  | n + 1, p => consumeN n (tryConsume p).2

/-- How an admitted upload request ends, per the documented pipeline
(API reference, `POST /process`): full success, a failed analysis
stage, the pre-classification rejecting a non-bill document, or the
client cancelling mid-pipeline. -/
inductive Outcome
  | success
  | analysisFailed
  | notABill
  | cancelled
deriving DecidableEq, Repr

/-- Observable steps of one upload request, used to state ordering
between credit consumption and the Analysis Orchestrator's stages. -/
inductive Event
  | consumeCredit
  | runStage (n : Nat)
  | respond
deriving DecidableEq, Repr

/-- The Analysis Orchestrator stages that run before each outcome is
reached: success runs all three Gemini calls; a failed analysis, a
non-bill rejection and a cancellation stop after the first stage. -/
def stageEvents : Outcome → List Event
  | Outcome.success =>
      [Event.runStage 1, Event.runStage 2, Event.runStage 3]
  | Outcome.analysisFailed => [Event.runStage 1]
  | Outcome.notABill => [Event.runStage 1]
  | Outcome.cancelled => [Event.runStage 1]

/-- Modelled from the spec: one `/process` upload request
(`backend/app.py` is not in the source tree).  "Credit deduction
happens BEFORE the LLM analysis call — credits are consumed even if the
analysis fails"; no exit path writes the ledger again. -/
def processRequest (p : Profile) (o : Outcome) : List Event × Profile :=
  match tryConsume p with
  | (ConsumeResult.granted, p1) =>
      (Event.consumeCredit :: (stageEvents o ++ [Event.respond]), p1)
  | (ConsumeResult.deniedNoEntitlement, p1) => ([Event.respond], p1)

/-- A row of the `purchases` table (supabase_schema.sql):
`stripe_session_id text unique not null`, `credits_purchased integer
not null`, `amount_cents integer not null`. -/
structure Purchase where
  stripe_session_id : String
  user_id : String
  credits_purchased : Int
  amount_cents : Int
deriving DecidableEq, Repr

/-- The payment store a webhook delivery acts on: the recorded
purchases and the principal's `profiles` row. -/
structure PayState where
  purchases : List Purchase
  profile : Profile
deriving DecidableEq, Repr

/-- Result of one reconciliation: the transaction was applied, or had
already been applied (a benign no-op, not an error). -/
inductive ReconcileResult
  | applied
  | alreadyApplied
deriving DecidableEq, Repr

/-- Number of recorded purchases carrying a given Stripe session id;
the `unique` constraint on `stripe_session_id` makes this the store's
duplicate test. -/
def txCount (txid : String) (l : List Purchase) : Nat :=
  l.countP (fun r => r.stripe_session_id == txid)

/-- Modelled from the spec: the Payment Reconciler (Stripe
`checkout.session.completed` webhook handler; `backend/app.py` is not
in the source tree).  On a first-seen transaction id it inserts the
purchase record and increments the balance as one unit; a duplicate is
rejected by the store's uniqueness constraint and treated as a benign
no-op. -/
def reconcile (txid uid : String) (c a : Int) (s : PayState) :
    ReconcileResult × PayState :=
  if txCount txid s.purchases = 0 then
    (ReconcileResult.applied,
      { purchases :=
          { stripe_session_id := txid, user_id := uid,
            credits_purchased := c, amount_cents := a } :: s.purchases,
        profile :=
          { s.profile with
              scan_credits := s.profile.scan_credits + c } })
  else
    (ReconcileResult.alreadyApplied, s)

/-- `n` deliveries of the same payment notification, returning the
final store and the per-delivery results in order. -/
def reconcileN (txid uid : String) (c a : Int) :
    Nat → PayState → PayState × List ReconcileResult
  | 0, s => (s, [])
  | n + 1, s =>
      let step := reconcile txid uid c a s
      let rest := reconcileN txid uid c a n step.2
      (rest.1, step.1 :: rest.2)

/-- An uploaded file as the frontend validator sees it: its MIME type
and byte size (`BillUpload.jsx`). -/
structure UploadFile where
  type : String
  size : Nat
deriving DecidableEq, Repr

/-- What `validateFile` (BillUpload.jsx) produces: acceptance, or the
error message it sets before returning `false`. -/
inductive ValidateResult
  | ok
  | errorMsg (msg : String)
deriving DecidableEq, Repr

/-- The allow-list from `validateFile` (BillUpload.jsx line 218). -/
def allowedTypes : List String :=
  ["application/pdf", "image/jpeg", "image/jpg", "image/png"]

/-- `validateFile` from BillUpload.jsx lines 217–228: the type check
runs first, then the 16MB size check. -/
def validateFile (f : UploadFile) : ValidateResult :=
  if allowedTypes.contains f.type = false then
    ValidateResult.errorMsg "Please upload a PDF, JPG, or PNG file"
  else if 16 * 1024 * 1024 < f.size then
    ValidateResult.errorMsg "File size must be less than 16MB"
  else
    ValidateResult.ok

/-- Severity levels of a detected billing issue, ordered
low < medium < high (schema CHECK constraint on
`analyses.overall_severity`; API reference severity table). -/
inductive Severity
  | low
  | medium
  | high
deriving DecidableEq, Repr

/-- Numeric rank realising the order low < medium < high. -/
def sevRank : Severity → Nat
  | Severity.low => 0
  | Severity.medium => 1
  | Severity.high => 2

/-- Maximum of two severities under the rank order. -/
def sevMax (x y : Severity) : Severity :=
  if sevRank x ≤ sevRank y then y else x

/-- A detected billing issue (API reference issue item shape). -/
structure Issue where
  type : String
  description : String
  item : String
  severity : Severity
deriving DecidableEq, Repr

/-- Modelled from the spec: the stage-2 overall severity
(`backend/llm_service.py` is not in the source tree).  "Overall
severity is the maximum severity across issues (or `none`/absence if
the issue list is empty)." -/
def overallSeverity (issues : List Issue) : Option Severity :=
  match issues with
  | [] => none
  | i :: rest =>
      some ((rest.map (fun j => j.severity)).foldl sevMax i.severity)

/-- Exit paths of the `/process` handler after the upload is admitted
(API reference error table: 422 no text, 500 extraction or Gemini
failure, 200 success). -/
inductive ProcOutcome
  | extractionFailed
  | noTextFound
  | upstreamFailed
  | completed
deriving DecidableEq, Repr

/-- Modelled from the spec: the ephemeral file lifecycle of one
`/process` request (`backend/app.py` is not in the source tree).  The
file is saved to the uploads store under its identifier and deleted on
every exit path before the response ("DELETE file immediately";
"Uploaded files are deleted immediately after text extraction —
nothing is stored persistently on the backend").  Returns the uploads
store after the request and the HTTP status responded. -/
def processFile (fid : String) (store : List String) (o : ProcOutcome) :
    List String × Nat :=
  let stored := fid :: store
  match o with
  | ProcOutcome.extractionFailed => (stored.filter (fun x => x != fid), 500)
  | ProcOutcome.noTextFound => (stored.filter (fun x => x != fid), 422)
  | ProcOutcome.upstreamFailed => (stored.filter (fun x => x != fid), 500)
  | ProcOutcome.completed => (stored.filter (fun x => x != fid), 200)

/-- SQL statement kinds governed by row-level security. -/
inductive SqlOp
  | select
  | insert
  | update
  | delete
deriving DecidableEq, Repr

/-- A `profiles` row together with its owning principal
(`user_id uuid ... primary key`). -/
structure ProfileRow where
  user_id : String
  data : Profile

/-- A row-level-security policy: the statement kind it is `for`, and
its `using` predicate over the caller's `auth.uid()` and the row. -/
structure Policy where
  op : SqlOp
  usingCheck : String → ProfileRow → Bool

/-- Postgres RLS for a table with row security enabled: an operation
on a row is permitted to the `authenticated` role exactly when some
policy for that operation accepts the row; with no matching policy the
operation is denied. -/
def rlsAllows (policies : List Policy) (op : SqlOp) (uid : String)
    (row : ProfileRow) : Bool :=
  policies.any (fun pol => decide (pol.op = op) && pol.usingCheck uid row)

/-- The `profiles` policies from supabase_schema.sql lines 157–164:
row security enabled, and a single policy `"Users can view their own
profile" on profiles for select using (auth.uid() = user_id)`.  No
INSERT/UPDATE/DELETE policies exist for the authenticated role. -/
def profilesPolicies : List Policy :=
  [{ op := SqlOp.select, usingCheck := fun uid row => uid == row.user_id }]

/-- The caller's JWT as `get_admin_stats` reads it:
`auth.jwt() -> 'app_metadata' ->> 'role'`, which is null when the
claim is absent. -/
structure Jwt where
  app_metadata_role : Option String
deriving DecidableEq, Repr

/-- `caller_role := coalesce((auth.jwt() -> 'app_metadata' ->>
'role'), '')` from get_admin_stats (supabase_schema.sql line 108). -/
def callerRole (j : Jwt) : String :=
  j.app_metadata_role.getD ""

/-- A row of the `analyses` table as the stats functions read it:
owner, creation day, overall severity (nullable, constrained to
low/medium/high), potential savings and dispute status.  `created_at`
is modelled in whole days so the `interval '7 days'` comparisons are
exact. -/
structure AnalysisRow where
  user_id : String
  created_at : Nat
  overall_severity : Option Severity
  potential_savings : Int
  dispute_status : String
deriving DecidableEq, Repr

/-- The aggregate object `get_admin_stats` builds
(supabase_schema.sql lines 113–139); the two `json_object_agg`
group-bys are rendered as one count per value admitted by the schema's
CHECK constraints. -/
structure AdminStats where
  total_analyses : Nat
  active_users : Nat
  total_potential_savings : Int
  total_confirmed_savings : Int
  last_7_days : Nat
  last_30_days : Nat
  severity_low : Nat
  severity_medium : Nat
  severity_high : Nat
  dispute_none : Nat
  dispute_submitted : Nat
  dispute_in_progress : Nat
  dispute_resolved : Nat
  dispute_rejected : Nat
deriving DecidableEq, Repr

/-- The statistics body of `get_admin_stats`, evaluated over the
`analyses` rows at time `now` (in days). -/
def computeAdminStats (now : Nat) (rows : List AnalysisRow) : AdminStats :=
  { total_analyses := rows.length
    active_users := ((rows.map (fun r => r.user_id)).eraseDups).length
    total_potential_savings :=
      (rows.map (fun r => r.potential_savings)).sum
    total_confirmed_savings :=
      ((rows.filter (fun r => r.dispute_status == "resolved")).map
        (fun r => r.potential_savings)).sum
    last_7_days := rows.countP (fun r => now ≤ r.created_at + 7)
    last_30_days := rows.countP (fun r => now ≤ r.created_at + 30)
    severity_low :=
      rows.countP (fun r => decide (r.overall_severity = some Severity.low))
    severity_medium :=
      rows.countP (fun r => decide (r.overall_severity = some Severity.medium))
    severity_high :=
      rows.countP (fun r => decide (r.overall_severity = some Severity.high))
    dispute_none := rows.countP (fun r => r.dispute_status == "none")
    dispute_submitted := rows.countP (fun r => r.dispute_status == "submitted")
    dispute_in_progress :=
      rows.countP (fun r => r.dispute_status == "in_progress")
    dispute_resolved := rows.countP (fun r => r.dispute_status == "resolved")
    dispute_rejected := rows.countP (fun r => r.dispute_status == "rejected") }

/-- `get_admin_stats` from supabase_schema.sql lines 103–141: the role
read from the JWT must equal admin, otherwise the function raises
`Access denied: admin role required` and returns nothing. -/
def get_admin_stats (j : Jwt) (now : Nat) (rows : List AnalysisRow) :
    Except String AdminStats :=
  if callerRole j ≠ "admin" then
    Except.error "Access denied: admin role required"
  else
    Except.ok (computeAdminStats now rows)

/-- The `analysis_results` payload as `saveToSupabase`
(BillAnalysis.jsx) reads it; each field may be absent. -/
structure AnalysisResultsPayload where
  issues : Option (List Issue)
  overall_severity : Option Severity
  potential_savings : Option Int

/-- The row `saveToSupabase` inserts into `analyses`
(BillAnalysis.jsx lines 25–34). -/
structure AnalysesInsert where
  user_id : String
  overall_severity : Option Severity
  potential_savings : Int
  issues_count : Nat

/-- The insert payload built by `saveToSupabase`:
`overall_severity: analysis_results?.overall_severity || null`,
`potential_savings: analysis_results?.potential_savings || 0`,
`issues_count: analysis_results?.issues?.length || 0`. -/
def buildAnalysesInsert (uid : String) (ar : Option AnalysisResultsPayload) :
    AnalysesInsert :=
  { user_id := uid
    overall_severity := ar.bind (fun x => x.overall_severity)
    potential_savings := (ar.bind (fun x => x.potential_savings)).getD 0
    issues_count :=
      ((ar.bind (fun x => x.issues)).map (fun l => l.length)).getD 0 }

/-- The component state guarding the save (`BillAnalysis.jsx`): the
`saving` and `saved` flags plus a count of inserts actually sent. -/
structure SaveState where
  saving : Bool
  saved : Bool
  inserts : Nat
deriving DecidableEq, Repr

/-- One invocation of `saveToSupabase` (BillAnalysis.jsx lines 20–42):
`if (saving || saved) return` guards the insert; on a successful
insert `saved` becomes true, on an error it stays false; `saving` is
reset at the end either way.  `ok` is the insert's outcome. -/
def saveToSupabase (ok : Bool) (s : SaveState) : SaveState :=
  if s.saving || s.saved then s
  else if ok then
    { saving := false, saved := true, inserts := s.inserts + 1 }
  else
    { saving := false, saved := false, inserts := s.inserts + 1 }

/-- A sequence of `saveToSupabase` invocations with the given insert
outcomes. -/
def applySaves (oks : List Bool) (s : SaveState) : SaveState :=
  oks.foldl (fun st ok => saveToSupabase ok st) s

theorem tryConsume_step_nonneg (p : Profile) (h : 0 ≤ p.scan_credits) :
    0 ≤ (tryConsume p).2.scan_credits := by
  unfold tryConsume
  split
  · simpa using h
  · split
    · rename_i hpos
      simp only []
      omega
    · simpa using h

/-- C1: for every principal and every sequence of `tryConsume`
operations, the credit balance (`scan_credits`) stays non-negative
after each operation, provided it starts non-negative (the schema
default is 0). -/
theorem consumeN_credits_nonneg (n : Nat) (p : Profile)
    (h : 0 ≤ p.scan_credits) : 0 ≤ (consumeN n p).scan_credits := by
  induction n generalizing p with
  | zero => simpa [consumeN] using h
  | succ k ih =>
    simp only [consumeN]
    exact ih _ (tryConsume_step_nonneg p h)

/-- Witness for C1 at a concrete account: balance 1, free scan already
used, three gate calls. -/
theorem consumeN_credits_nonneg_witness :
    0 ≤ (consumeN 3 { scan_credits := 1, free_scan_used := true,
                      total_scans := 0 }).scan_credits :=
  consumeN_credits_nonneg 3 _ (by decide)

/-- C3: one `tryConsume` call behaves exactly as specified: free scan
available — flag flips, balance untouched, granted; flag used and
positive balance — balance drops by exactly 1, granted; flag used and
no balance — denied with NoEntitlement and the row unchanged. -/
theorem tryConsume_cases (p : Profile) :
    (p.free_scan_used = false →
      (tryConsume p).1 = ConsumeResult.granted ∧
      (tryConsume p).2.free_scan_used = true ∧
      (tryConsume p).2.scan_credits = p.scan_credits) ∧
    (p.free_scan_used = true → 0 < p.scan_credits →
      (tryConsume p).1 = ConsumeResult.granted ∧
      (tryConsume p).2.scan_credits = p.scan_credits - 1 ∧
      (tryConsume p).2.free_scan_used = true) ∧
    (p.free_scan_used = true → p.scan_credits ≤ 0 →
      (tryConsume p).1 = ConsumeResult.deniedNoEntitlement ∧
      (tryConsume p).2 = p) := by
  refine ⟨fun h => ?_, fun h hc => ?_, fun h hc => ?_⟩
  · simp [tryConsume, h]
  · simp [tryConsume, h, hc]
  · simp [tryConsume, h, show ¬ p.scan_credits > 0 by omega]

/-- C4: in every admitted upload request the credit is consumed
strictly before any Analysis Orchestrator stage runs (a stage at trace
position `i` forces the consumption at position 0 with `0 < i`), and
no outcome — success, analysis failure, non-bill rejection or
cancellation — changes the ledger after the gate: the final row is
exactly the gate's output, so the consumed credit is never restored. -/
theorem processRequest_consume_first (p : Profile) (o : Outcome) :
    (processRequest p o).2 = (tryConsume p).2 ∧
    (∀ i k, (processRequest p o).1.get? i = some (Event.runStage k) →
      0 < i ∧ (processRequest p o).1.get? 0 = some Event.consumeCredit) := by
  rcases htc : tryConsume p with ⟨r, p1⟩
  cases r with
  | granted =>
    refine ⟨by simp [processRequest, htc], ?_⟩
    intro i k hi
    cases i with
    | zero => simp [processRequest, htc] at hi
    | succ m => exact ⟨Nat.succ_pos m, by simp [processRequest, htc]⟩
  | deniedNoEntitlement =>
    refine ⟨by simp [processRequest, htc], ?_⟩
    intro i k hi
    exfalso
    cases i with
    | zero => simp [processRequest, htc] at hi
    | succ m => simp [processRequest, htc] at hi

theorem txCount_cons_self (txid uid : String) (c a : Int)
    (l : List Purchase) :
    txCount txid
      ({ stripe_session_id := txid, user_id := uid,
         credits_purchased := c, amount_cents := a } :: l)
      = txCount txid l + 1 := by
  simp [txCount, List.countP_cons]

theorem reconcile_first (txid uid : String) (c a : Int) (s : PayState)
    (h : txCount txid s.purchases = 0) :
    reconcile txid uid c a s =
      (ReconcileResult.applied,
        { purchases :=
            { stripe_session_id := txid, user_id := uid,
              credits_purchased := c, amount_cents := a } :: s.purchases,
          profile :=
            { s.profile with
                scan_credits := s.profile.scan_credits + c } }) := by
  simp [reconcile, h]

theorem reconcile_dup (txid uid : String) (c a : Int) (s : PayState)
    (h : txCount txid s.purchases ≠ 0) :
    reconcile txid uid c a s = (ReconcileResult.alreadyApplied, s) := by
  simp [reconcile, h]

theorem reconcileN_dup (n : Nat) (txid uid : String) (c a : Int)
    (s : PayState) (h : txCount txid s.purchases ≠ 0) :
    reconcileN txid uid c a n s
      = (s, List.replicate n ReconcileResult.alreadyApplied) := by
  induction n with
  | zero => simp [reconcileN]
  | succ m ih =>
    simp [reconcileN, reconcile_dup txid uid c a s h, ih,
      List.replicate_succ]

/-- C2: reconciliation is idempotent per transaction id.  Starting
from a store with no record of `txid`, any `n + 1 ≥ 1` deliveries of
the same notification increment the balance by `credits_purchased`
exactly once, leave exactly one purchase record for `txid`, and every
delivery after the first resolves to the benign `alreadyApplied`
no-op. -/
theorem reconcile_idempotent (n : Nat) (txid uid : String) (c a : Int)
    (s : PayState) (h : txCount txid s.purchases = 0) :
    (reconcileN txid uid c a (n + 1) s).1.profile.scan_credits
        = s.profile.scan_credits + c ∧
    txCount txid (reconcileN txid uid c a (n + 1) s).1.purchases = 1 ∧
    (reconcileN txid uid c a (n + 1) s).2
        = ReconcileResult.applied ::
            List.replicate n ReconcileResult.alreadyApplied := by
  have h1 : txCount txid
      ({ stripe_session_id := txid, user_id := uid,
         credits_purchased := c, amount_cents := a } :: s.purchases) = 1 := by
    rw [txCount_cons_self, h]
  have hD := reconcileN_dup n txid uid c a
      { purchases :=
          { stripe_session_id := txid, user_id := uid,
            credits_purchased := c, amount_cents := a } :: s.purchases,
        profile :=
          { s.profile with
              scan_credits := s.profile.scan_credits + c } }
      (by simpa using h1 ▸ (one_ne_zero : (1 : Nat) ≠ 0))
  simp only [reconcileN, reconcile_first txid uid c a s h, hD]
  refine ⟨by simp, ?_, by simp⟩
  simpa using h1

/-- Witness for C2: the spec's scenario — notification
`(tx_1, 5 credits)` delivered twice against an empty store — credits
the balance by 5 once, records one purchase, and the second delivery
is `alreadyApplied`. -/
theorem reconcile_idempotent_witness :
    (reconcileN "tx_1" "u1" 5 449 (1 + 1)
        { purchases := [],
          profile := { scan_credits := 0, free_scan_used := true,
                       total_scans := 0 } }).1.profile.scan_credits
        = ({ scan_credits := 0, free_scan_used := true,
             total_scans := 0 } : Profile).scan_credits + 5 ∧
    txCount "tx_1"
        (reconcileN "tx_1" "u1" 5 449 (1 + 1)
          { purchases := [],
            profile := { scan_credits := 0, free_scan_used := true,
                         total_scans := 0 } }).1.purchases = 1 ∧
    (reconcileN "tx_1" "u1" 5 449 (1 + 1)
        { purchases := [],
          profile := { scan_credits := 0, free_scan_used := true,
                       total_scans := 0 } }).2
      = ReconcileResult.applied ::
          List.replicate 1 ReconcileResult.alreadyApplied :=
  reconcile_idempotent 1 "tx_1" "u1" 5 449 _ rfl

/-- C5 counterexample: a 16MB+1 `text/plain` upload exceeds the size
limit, yet `validateFile` rejects it with the unsupported-format
message, not the too-large one — the type check runs first, so the
claim's unconditional "oversized input fails with a too-large error"
does not hold. -/
theorem validateFile_oversized_not_tooLarge :
    validateFile { type := "text/plain", size := 16 * 1024 * 1024 + 1 }
        = ValidateResult.errorMsg "Please upload a PDF, JPG, or PNG file" ∧
    decide
      (validateFile { type := "text/plain", size := 16 * 1024 * 1024 + 1 }
        = ValidateResult.errorMsg "File size must be less than 16MB")
      = false ∧
    16 * 1024 * 1024 < 16 * 1024 * 1024 + 1 := by
  refine ⟨by decide, by decide, by omega⟩

/-- C5 (amended): `validateFile` rejects every file whose MIME type is
outside the allow-list {PDF, JPEG, PNG} with the unsupported-format
error; an allow-listed file over 16MB is rejected with the too-large
error; an allow-listed file within 16MB is accepted. -/
theorem validateFile_spec (f : UploadFile) :
    (allowedTypes.contains f.type = false →
      validateFile f
        = ValidateResult.errorMsg "Please upload a PDF, JPG, or PNG file") ∧
    (allowedTypes.contains f.type = true → 16 * 1024 * 1024 < f.size →
      validateFile f
        = ValidateResult.errorMsg "File size must be less than 16MB") ∧
    (allowedTypes.contains f.type = true → f.size ≤ 16 * 1024 * 1024 →
      validateFile f = ValidateResult.ok) := by
  refine ⟨fun h => ?_, fun h hs => ?_, fun h hs => ?_⟩
  · unfold validateFile
    rw [h]
    simp
  · unfold validateFile
    rw [h]
    simp [hs]
  · unfold validateFile
    rw [h]
    simp [show ¬ 16 * 1024 * 1024 < f.size by omega]

theorem sevMax_eq_or (x y : Severity) : sevMax x y = x ∨ sevMax x y = y := by
  unfold sevMax
  split <;> simp

theorem sevRank_le_sevMax_left (x y : Severity) :
    sevRank x ≤ sevRank (sevMax x y) := by
  unfold sevMax
  split
  · rename_i hle
    exact hle
  · exact Nat.le_refl _

theorem sevRank_le_sevMax_right (x y : Severity) :
    sevRank y ≤ sevRank (sevMax x y) := by
  unfold sevMax
  split
  · exact Nat.le_refl _
  · rename_i hgt
    omega

theorem foldl_sevMax_mem (l : List Severity) (a : Severity) :
    l.foldl sevMax a = a ∨ l.foldl sevMax a ∈ l := by
  induction l generalizing a with
  | nil => exact Or.inl rfl
  | cons b t ih =>
    simp only [List.foldl_cons]
    rcases ih (sevMax a b) with h | h
    · rcases sevMax_eq_or a b with h2 | h2
      · exact Or.inl (by rw [h, h2])
      · exact Or.inr (by rw [h, h2]; exact List.mem_cons_self b t)
    · exact Or.inr (List.mem_cons_of_mem b h)

theorem le_foldl_sevMax_init (l : List Severity) (a : Severity) :
    sevRank a ≤ sevRank (l.foldl sevMax a) := by
  induction l generalizing a with
  | nil => exact Nat.le_refl _
  | cons b t ih =>
    simp only [List.foldl_cons]
    exact Nat.le_trans (sevRank_le_sevMax_left a b) (ih (sevMax a b))

theorem le_foldl_sevMax_mem (l : List Severity) :
    ∀ (a x : Severity), x ∈ l → sevRank x ≤ sevRank (l.foldl sevMax a) := by
  induction l with
  | nil =>
    intro a x hx
    cases hx
  | cons b t ih =>
    intro a x hx
    simp only [List.foldl_cons]
    rcases List.mem_cons.mp hx with rfl | hmem
    · exact Nat.le_trans (sevRank_le_sevMax_right a x)
        (le_foldl_sevMax_init t _)
    · exact ih (sevMax a b) x hmem

/-- C6: the overall severity is `none` exactly when the issue list is
empty; otherwise it is the maximum severity across the issues in the
order low < medium < high — attained by some issue, and at least every
issue's severity. -/
theorem overallSeverity_spec (issues : List Issue) :
    (overallSeverity issues = none ↔ issues = []) ∧
    (∀ s, overallSeverity issues = some s →
      (∃ i ∈ issues, i.severity = s) ∧
      ∀ i ∈ issues, sevRank i.severity ≤ sevRank s) := by
  cases issues with
  | nil => simp [overallSeverity]
  | cons i rest =>
    refine ⟨by simp [overallSeverity], ?_⟩
    intro s hs
    simp only [overallSeverity, Option.some.injEq] at hs
    subst hs
    constructor
    · rcases foldl_sevMax_mem (rest.map (fun j => j.severity)) i.severity
        with h | h
      · exact ⟨i, List.mem_cons_self i rest, h.symm⟩
      · rcases List.mem_map.mp h with ⟨j, hj, hjs⟩
        exact ⟨j, List.mem_cons_of_mem i hj, hjs⟩
    · intro j hj
      rcases List.mem_cons.mp hj with rfl | hmem
      · exact le_foldl_sevMax_init _ _
      · exact le_foldl_sevMax_mem _ _ _
          (List.mem_map_of_mem (fun x => x.severity) hmem)

/-- C7: whatever way a `/process` request ends — extraction failure,
no text found, upstream failure or success — the uploaded file's
identifier is absent from the uploads store once handling completes:
every exit path deletes the temporary file, leaving the store equal to
the prior store scrubbed of that identifier. -/
theorem processFile_deletes (fid : String) (store : List String)
    (o : ProcOutcome) :
    fid ∉ (processFile fid store o).1 ∧
    (processFile fid store o).1 = store.filter (fun x => x != fid) := by
  cases o <;>
    refine ⟨?_, ?_⟩ <;>
      simp [processFile, List.filter_cons, List.mem_filter]

/-- C8: under the schema's row-level security the authenticated role's
access to `profiles` is exactly reading its own row: the single SELECT
policy admits `auth.uid() = user_id`, and with no INSERT, UPDATE or
DELETE policy those operations are denied on every row — so no
operation available to an authenticated principal writes the credit
ledger; writes happen only through the service-role backend, which is
outside RLS. -/
theorem profiles_rls_read_only (op : SqlOp) (uid : String)
    (row : ProfileRow) :
    rlsAllows profilesPolicies op uid row = true
      ↔ op = SqlOp.select ∧ uid = row.user_id := by
  simp only [rlsAllows, profilesPolicies, List.any_cons, List.any_nil,
    Bool.or_false, Bool.and_eq_true, decide_eq_true_eq, beq_iff_eq]
  constructor
  · rintro ⟨h1, h2⟩
    exact ⟨h1.symm, h2⟩
  · rintro ⟨h1, h2⟩
    exact ⟨h1.symm, h2⟩

/-- C9: `get_admin_stats` returns the aggregate statistics object
exactly for callers whose JWT `app_metadata` role equals `admin`; any
other caller gets the access-denied error and no statistics. -/
theorem get_admin_stats_spec (j : Jwt) (now : Nat)
    (rows : List AnalysisRow) :
    (get_admin_stats j now rows = Except.ok (computeAdminStats now rows)
      ↔ callerRole j = "admin") ∧
    (callerRole j ≠ "admin" →
      get_admin_stats j now rows
        = Except.error "Access denied: admin role required") := by
  by_cases h : callerRole j = "admin" <;>
    simp [get_admin_stats, h]

theorem applySaves_saved (oks : List Bool) (s : SaveState)
    (h : s.saved = true) : applySaves oks s = s := by
  induction oks with
  | nil => rfl
  | cons b t ih =>
    have hstep : saveToSupabase b s = s := by
      simp [saveToSupabase, h]
    show applySaves t (saveToSupabase b s) = s
    rw [hstep]
    exact ih

/-- C10: the row `saveToSupabase` inserts is internally consistent
with its payload — `issues_count` is the length of the payload's
issues list (0 when the list is absent), `potential_savings` is the
payload's value (0 when absent), and `overall_severity` is null when
the payload carries none — and the `saving`/`saved` flags guard the
insert: an invocation while already saving or saved changes nothing,
and once a save has succeeded every further invocation sequence leaves
the state, hence the number of inserts sent, unchanged. -/
theorem saveToSupabase_spec (uid : String)
    (ar : Option AnalysisResultsPayload) (oks : List Bool)
    (s : SaveState) :
    (buildAnalysesInsert uid ar).issues_count
        = ((ar.bind (fun x => x.issues)).getD []).length ∧
    (buildAnalysesInsert uid ar).potential_savings
        = (ar.bind (fun x => x.potential_savings)).getD 0 ∧
    (ar.bind (fun x => x.overall_severity) = none →
      (buildAnalysesInsert uid ar).overall_severity = none) ∧
    (s.saving = true ∨ s.saved = true →
      saveToSupabase true s = s ∧ saveToSupabase false s = s) ∧
    (s.saved = true → applySaves oks s = s) := by
  refine ⟨?_, rfl, fun h => ?_, fun h => ?_, fun h => applySaves_saved oks s h⟩
  · cases hb : ar.bind (fun x => x.issues) with
    | none => simp [buildAnalysesInsert, hb]
    | some l => simp [buildAnalysesInsert, hb]
  · simp [buildAnalysesInsert, h]
  · have hc : (s.saving || s.saved) = true := by
      rcases h with h | h <;> simp [h]
    exact ⟨by simp [saveToSupabase, hc], by simp [saveToSupabase, hc]⟩
